import Mathlib

/-!
# Verification of the umake-website voxel field and trigger watcher

Shallow embedding of `src/script.js`.

The script has two independent subsystems:

* a background-color switcher: an `IntersectionObserver` callback that, for each
  intersecting entry in a notification batch, assigns that entry's `data-color`
  attribute to the page background (lines 13–20);
* a field of `RollingVoxel` actors, each a cube that idles for a random wait
  time and then rolls one lattice cell in a random cardinal direction about the
  bottom leading edge (lines 75–190).

Numbers are modelled by `ℚ` (the script's arithmetic on positions, timers and
progress is exact decimal/integer arithmetic in every code path the claims talk
about).  Orientations are modelled by rotation matrices over `ℚ`: the script
stores a unit quaternion `mesh.quaternion` and composes with `premultiply`;
a unit quaternion acts on vectors as the corresponding rotation matrix, and
`q2.premultiply`/`setFromAxisAngle` correspond to matrix product
`R(axis, angle) * M` with `R` the Rodrigues rotation matrix.  For an exact 90°
turn about a unit coordinate axis that matrix has entries in `{0, ±1}`, so the
end-of-roll snap is exact here just as it is intended to be in the script.

The only non-exact ingredient is the mid-roll interpolation, which evaluates
`cos`/`sin` of `(π/2)·progress`.  The embedding is parameterised by two
functions `c s : ℚ → ℚ` standing for cosine and sine of an angle measured in
degrees; the mid-roll claims hold for arbitrary `c`, `s` (plus the trig facts
`c 0 = 1`, `s 0 = 0` where the spec talks about progress 0), and no completed
roll ever depends on them because the end snap recomputes from the stored
snapshots.

`Math.random()` values are injected as an explicit stream (`List ℚ`), consumed
in exactly the order the script calls `Math.random()`.
-/

namespace UmakeWebsite

/-- A 3-vector with rational coordinates, modelling `THREE.Vector3`. -/
structure Vec3 where
  x : ℚ
  y : ℚ
  z : ℚ
  deriving DecidableEq, Repr

def Vec3.add (a b : Vec3) : Vec3 :=
  ⟨a.x + b.x, a.y + b.y, a.z + b.z⟩

def Vec3.sub (a b : Vec3) : Vec3 :=
  ⟨a.x - b.x, a.y - b.y, a.z - b.z⟩

def Vec3.smul (k : ℚ) (a : Vec3) : Vec3 :=
  ⟨k * a.x, k * a.y, k * a.z⟩

/-- A 3×3 rational matrix, modelling the rotation carried by `mesh.quaternion`. -/
structure Mat3 where
  a00 : ℚ
  a01 : ℚ
  a02 : ℚ
  a10 : ℚ
  a11 : ℚ
  a12 : ℚ
  a20 : ℚ
  a21 : ℚ
  a22 : ℚ
  deriving DecidableEq, Repr

/-- The identity rotation (`mesh.rotation.set(0, 0, 0)` / identity quaternion). -/
def Mat3.one : Mat3 :=
  ⟨1, 0, 0, 0, 1, 0, 0, 0, 1⟩

/-- Matrix product; `A.mul B` models `quaternionOfA.premultiply`-ing `A` onto `B`,
i.e. the rotation "first `B`, then `A`". -/
def Mat3.mul (A B : Mat3) : Mat3 :=
  ⟨A.a00 * B.a00 + A.a01 * B.a10 + A.a02 * B.a20,
   A.a00 * B.a01 + A.a01 * B.a11 + A.a02 * B.a21,
   A.a00 * B.a02 + A.a01 * B.a12 + A.a02 * B.a22,
   A.a10 * B.a00 + A.a11 * B.a10 + A.a12 * B.a20,
   A.a10 * B.a01 + A.a11 * B.a11 + A.a12 * B.a21,
   A.a10 * B.a02 + A.a11 * B.a12 + A.a12 * B.a22,
   A.a20 * B.a00 + A.a21 * B.a10 + A.a22 * B.a20,
   A.a20 * B.a01 + A.a21 * B.a11 + A.a22 * B.a21,
   A.a20 * B.a02 + A.a21 * B.a12 + A.a22 * B.a22⟩

/-- Apply a matrix to a vector, modelling `Vector3.applyAxisAngle` when the
matrix is the Rodrigues matrix of the axis/angle pair. -/
def Mat3.mulVec (A : Mat3) (v : Vec3) : Vec3 :=
  ⟨A.a00 * v.x + A.a01 * v.y + A.a02 * v.z,
   A.a10 * v.x + A.a11 * v.y + A.a12 * v.z,
   A.a20 * v.x + A.a21 * v.y + A.a22 * v.z⟩

/-- Rodrigues rotation matrix `c·I + s·[a]× + (1−c)·a·aᵀ` for a unit axis `a`,
where `c`/`s` are the cosine/sine of the rotation angle.  This is the rotation
matrix of the quaternion built by `Quaternion.setFromAxisAngle(a, θ)` and the
transform applied by `Vector3.applyAxisAngle(a, θ)`, with `c = cos θ`,
`s = sin θ`. -/
def rodrigues (a : Vec3) (c s : ℚ) : Mat3 :=
  ⟨c + (1 - c) * a.x * a.x, (1 - c) * a.x * a.y - s * a.z, (1 - c) * a.x * a.z + s * a.y,
   (1 - c) * a.x * a.y + s * a.z, c + (1 - c) * a.y * a.y, (1 - c) * a.y * a.z - s * a.x,
   (1 - c) * a.x * a.z - s * a.y, (1 - c) * a.y * a.z + s * a.x, c + (1 - c) * a.z * a.z⟩

/-- The exact 90° rotation about axis `a`: `cos (π/2) = 0`, `sin (π/2) = 1`.
Models `new THREE.Quaternion().setFromAxisAngle(axis, Math.PI / 2)`
(line 150), which is exact in the rotation it denotes. -/
def rot90 (a : Vec3) : Mat3 :=
  rodrigues a 0 1

/-! ## Tunable parameters (the `SETTINGS` object, lines 32–41) -/

/-- `SETTINGS.moveSpeed = 0.06` — progress increment per `animateRoll` call. -/
def moveSpeed : ℚ := 6 / 100

/-- `SETTINGS.maxWaitTime = 4000` — max milliseconds a voxel waits. -/
def maxWaitTime : ℚ := 4000

/-- `SETTINGS.spawnRange = 90` — how far out voxels can spawn/travel. -/
def spawnRange : ℚ := 90

/-- `this.size = 1` — cube edge length (line 77). -/
def cubeSize : ℚ := 1

/-! ## Voxel state -/

/-- State of one `RollingVoxel`.  `position`/`orientation` are the mesh
transform; the remaining fields are the instance fields of the class.  Fields
that the script leaves `undefined` until the first roll start at harmless
defaults. -/
structure Voxel where
  position : Vec3
  orientation : Mat3
  isMoving : Bool
  waitTimer : ℚ
  rollProgress : ℚ
  direction : Vec3
  axis : Vec3
  pivot : Vec3
  startPosition : Vec3
  startOrientation : Mat3
  deriving DecidableEq, Repr

def voxelDefault : Voxel :=
  { position := ⟨0, 0, 0⟩
    orientation := Mat3.one
    isMoving := false
    waitTimer := 0
    rollProgress := 0
    direction := ⟨0, 0, 0⟩
    axis := ⟨0, 0, 0⟩
    pivot := ⟨0, 0, 0⟩
    startPosition := ⟨0, 0, 0⟩
    startOrientation := Mat3.one }

instance : Inhabited Voxel := ⟨voxelDefault⟩

/-- Pop the next `Math.random()` value off the injected stream (`0` if the
stream is exhausted; the theorems only ever rely on values actually present). -/
def randTake : List ℚ → ℚ × List ℚ
  | [] => (0, [])
  | r :: rs => (r, rs)

/-- `reset` (lines 91–102): teleport to a random lattice point, clear the
rotation, draw a fresh random wait, leave the idle state.  Consumes three
random values, in source order: the `x` coordinate, the `z` coordinate, the
wait timer. -/
def reset (v : Voxel) (rs : List ℚ) : Voxel × List ℚ :=
  let p1 := randTake rs
  let p2 := randTake p1.2
  let p3 := randTake p2.2
  ({ v with
      position := ⟨(Int.floor ((p1.1 - 1/2) * spawnRange) : ℤ), 0,
                   (Int.floor ((p2.1 - 1/2) * spawnRange) : ℤ)⟩
      orientation := Mat3.one
      waitTimer := p3.1 * maxWaitTime
      isMoving := false }, p3.2)

/-- One entry of the `dirs` table in `startRoll` (lines 118–123): a travel
direction paired with its rotation axis. -/
structure DirMove where
  vec : Vec3
  axis : Vec3
  deriving DecidableEq, Repr

/-- The four cardinal moves of `startRoll`, in source order:
right, left, forward, backward. -/
def dirs : List DirMove :=
  [⟨⟨1, 0, 0⟩, ⟨0, 0, -1⟩⟩,
   ⟨⟨-1, 0, 0⟩, ⟨0, 0, 1⟩⟩,
   ⟨⟨0, 0, 1⟩, ⟨1, 0, 0⟩⟩,
   ⟨⟨0, 0, -1⟩, ⟨-1, 0, 0⟩⟩]

/-- `startRoll` (lines 113–137): enter the rolling state, pick a random
cardinal move, compute the pivot on the bottom edge in the direction of
travel, and snapshot position and orientation.  Consumes one random value
(the direction index `Math.floor(Math.random() * 4)`). -/
def startRoll (v : Voxel) (rs : List ℚ) : Voxel × List ℚ :=
  let p := randTake rs
  let move := (dirs.get? (Int.floor (p.1 * 4)).toNat).getD ⟨⟨1, 0, 0⟩, ⟨0, 0, -1⟩⟩
  ({ v with
      isMoving := true
      rollProgress := 0
      direction := move.vec
      axis := move.axis
      pivot := (v.position.add (Vec3.smul (cubeSize / 2) move.vec)).add
        ⟨0, -(cubeSize / 2), 0⟩
      startPosition := v.position
      startOrientation := v.orientation }, p.2)

/-- The end-of-roll snap (lines 144–151): leave the rolling state, set the
position to exactly `startPosition + direction` and the orientation to exactly
the 90° rotation about `axis` premultiplied onto `startOrientation`. -/
def snapRoll (v : Voxel) : Voxel :=
  { v with
      isMoving := false
      position := v.startPosition.add v.direction
      orientation := (rot90 v.axis).mul v.startOrientation }

/-- The mid-roll rotation angle in degrees: `(Math.PI / 2) * rollProgress`
(line 162) is `90° × progress`. -/
def rollAngle (p : ℚ) : ℚ :=
  90 * p

/-- The mid-roll recompute (lines 160–175): with `angle = 90° × progress`,
start from the snapshots, translate by `−pivot`, rotate about `axis`, translate
back, and premultiply the same rotation onto `startOrientation`.  `c`/`s` are
the ideal cosine/sine on degrees. -/
def midRoll (c s : ℚ → ℚ) (v : Voxel) : Voxel :=
  let angle := rollAngle v.rollProgress
  let R := rodrigues v.axis (c angle) (s angle)
  { v with
      position := (R.mulVec (v.startPosition.sub v.pivot)).add v.pivot
      orientation := R.mul v.startOrientation }

/-- `animateRoll` (lines 139–176): bump progress by `moveSpeed`; at
`progress ≥ 1` snap, draw a fresh wait, and recycle via `reset` when the
snapped position leaves the spawn range on either horizontal axis; otherwise
recompute the mid-roll transform from the snapshots. -/
def animateRoll (c s : ℚ → ℚ) (v : Voxel) (rs : List ℚ) : Voxel × List ℚ :=
  let v0 := { v with rollProgress := v.rollProgress + moveSpeed }
  if 1 ≤ v0.rollProgress then
    let v1 := snapRoll v0
    let p := randTake rs
    let v2 := { v1 with waitTimer := p.1 * maxWaitTime }
    if spawnRange < |v2.position.x| ∨ spawnRange < |v2.position.z| then
      reset v2 p.2
    else
      (v2, p.2)
  else
    (midRoll c s v0, rs)

/-- `step` (lines 104–111): while moving, animate the roll (ignoring the
elapsed time); while idle, count the wait timer down by the elapsed time and
start a roll when it reaches zero. -/
def step (c s : ℚ → ℚ) (v : Voxel) (delta : ℚ) (rs : List ℚ) : Voxel × List ℚ :=
  if v.isMoving then
    animateRoll c s v rs
  else
    let v1 := { v with waitTimer := v.waitTimer - delta }
    if v1.waitTimer ≤ 0 then startRoll v1 rs else (v1, rs)

/-- The `RollingVoxel` constructor (lines 76–89): start idle, then `reset`. -/
def mkVoxel (rs : List ℚ) : Voxel × List ℚ :=
  reset voxelDefault rs

/-- Run a sequence of `step` calls with the given elapsed-time deltas,
threading the random stream, and return the final state. -/
def run (c s : ℚ → ℚ) (v : Voxel) (ds : List ℚ) (rs : List ℚ) : Voxel × List ℚ :=
  ds.foldl (fun p d => step c s p.1 d p.2) (v, rs)

/-- The trace of states visited by a sequence of `step` calls (one state per
call, in order). -/
def runTrace (c s : ℚ → ℚ) : Voxel → List ℚ → List ℚ → List Voxel
  | _, [], _ => []
  | v, d :: ds, rs =>
    let p := step c s v d rs
    p.1 :: runTrace c s p.1 ds p.2

/-- Step every voxel of the pool once with the same delta (the
`voxels.forEach(v => v.step(deltaTime))` of `animate`), threading the random
stream left to right. -/
def stepAll (c s : ℚ → ℚ) (vs : List Voxel) (delta : ℚ) (rs : List ℚ) :
    List Voxel × List ℚ :=
  match vs with
  | [] => ([], rs)
  | v :: tl =>
    let p := step c s v delta rs
    let q := stepAll c s tl delta p.2
    (p.1 :: q.1, q.2)

/-- One call of the `animate` loop body (lines 183–190): compute
`deltaTime = time - lastTime`, step every voxel with that raw delta, and
remember `time` as the new `lastTime`.  There is no clamping of the delta. -/
def animateFrame (c s : ℚ → ℚ) (lastTime time : ℚ) (vs : List Voxel)
    (rs : List ℚ) : List Voxel × List ℚ × ℚ :=
  let deltaTime := time - lastTime
  let p := stepAll c s vs deltaTime rs
  (p.1, p.2, time)

/-! ## Trigger watcher (lines 5–24) -/

/-- One `IntersectionObserverEntry` as the callback reads it: the
`isIntersecting` flag and the target's `data-color` attribute (`none` when the
attribute is absent, as `getAttribute` then yields `null`). -/
structure Entry where
  isIntersecting : Bool
  dataColor : Option String
  deriving DecidableEq, Repr

/-- The `IntersectionObserver` callback (lines 13–20): for each entry of the
batch in order, if it is intersecting, assign its `data-color` to the page
background.  `bg` is the background color before the batch. -/
def observerCallback (entries : List Entry) (bg : Option String) : Option String :=
  entries.foldl (fun b e => if e.isIntersecting then e.dataColor else b) bg

/-- The threshold passed to the observer (`threshold: 0.4`, line 10). -/
def observerThreshold : ℚ := 2 / 5

/-- Modelled from the spec: the browser's `IntersectionObserver` (not part of
this repository) delivers, for a region whose visible fraction just changed to
`newFrac` under a configured `threshold`, an entry whose `isIntersecting` is
true exactly when the visible fraction has reached the threshold, carrying the
region's color attribute. -/
def mkEntry (threshold newFrac : ℚ) (color : Option String) : Entry :=
  { isIntersecting := decide (threshold ≤ newFrac), dataColor := color }

/-! ## Lattice and orientation invariants -/

/-- `q` is an integer. -/
def intQ (q : ℚ) : Prop :=
  ∃ n : ℤ, q = (n : ℚ)

/-- All three coordinates are integers. -/
def intVec (p : Vec3) : Prop :=
  intQ p.x ∧ intQ p.y ∧ intQ p.z

/-- The four rotation axes that `startRoll` can select (the `axis` components
of `dirs`). -/
def rollAxes : List Vec3 :=
  [⟨0, 0, -1⟩, ⟨0, 0, 1⟩, ⟨1, 0, 0⟩, ⟨-1, 0, 0⟩]

/-- Orientations reachable at rest: the identity and everything obtained from a
rest orientation by one exact 90° roll about a selectable axis. -/
inductive Aligned : Mat3 → Prop
  | one : Aligned Mat3.one
  | roll (a : Vec3) (M : Mat3) : a ∈ rollAxes → Aligned M → Aligned ((rot90 a).mul M)

/-- The pending move of a rolling voxel was drawn from the `dirs` table. -/
def dirOk (v : Voxel) : Prop :=
  DirMove.mk v.direction v.axis ∈ dirs

/-- The state invariant: an idle voxel sits on the integer lattice with an
`Aligned` orientation, and a rolling voxel's snapshots (which alone determine
the end-of-roll snap) satisfy the same, with a pending move from `dirs`. -/
def GoodVoxel (v : Voxel) : Prop :=
  (v.isMoving = false → intVec v.position ∧ Aligned v.orientation) ∧
  (v.isMoving = true → intVec v.startPosition ∧ Aligned v.startOrientation ∧ dirOk v)

/-! ## Claim-statement predicates and concrete instances -/

/-- Stand-ins for the ideal cosine/sine on degrees, used wherever a concrete
instantiation of the trig parameters is needed; no property proved about a
completed roll depends on them. -/
def cFun : ℚ → ℚ := fun _ => 1

def sFun : ℚ → ℚ := fun _ => 0

/-- What the end-of-roll snap promises: position exactly `startPosition +
direction`, orientation exactly one 90° rotation about `axis` composed onto
`startOrientation`, the vertical coordinate unchanged, and exactly one
horizontal coordinate changed, by exactly `±1`. -/
def SnapSpec (v : Voxel) : Prop :=
  (snapRoll v).position = v.startPosition.add v.direction ∧
  (snapRoll v).orientation = (rot90 v.axis).mul v.startOrientation ∧
  (snapRoll v).position.y = v.startPosition.y ∧
  ((((snapRoll v).position.x - v.startPosition.x = 1 ∨
      (snapRoll v).position.x - v.startPosition.x = -1) ∧
    (snapRoll v).position.z = v.startPosition.z) ∨
   ((snapRoll v).position.x = v.startPosition.x ∧
    ((snapRoll v).position.z - v.startPosition.z = 1 ∨
      (snapRoll v).position.z - v.startPosition.z = -1)))

/-- What a mid-roll step promises (spec wording, §4.3 transition 2): the new
position is `startPosition` translated by `−pivot`, rotated by
`angle = 90° × progress` about `axis`, translated back; the new orientation is
that same rotation premultiplied onto `startOrientation`; and neither depends
on the previous frame's interpolated `position`/`orientation`. -/
def MidRollSpec (c s : ℚ → ℚ) (v : Voxel) (rs : List ℚ) : Prop :=
  (animateRoll c s v rs).1.position =
      ((rodrigues v.axis (c (rollAngle (v.rollProgress + moveSpeed)))
          (s (rollAngle (v.rollProgress + moveSpeed)))).mulVec
        (v.startPosition.sub v.pivot)).add v.pivot ∧
  (animateRoll c s v rs).1.orientation =
      (rodrigues v.axis (c (rollAngle (v.rollProgress + moveSpeed)))
          (s (rollAngle (v.rollProgress + moveSpeed)))).mul v.startOrientation ∧
  ∀ q Q,
    (animateRoll c s { v with position := q, orientation := Q } rs).1.position =
        (animateRoll c s v rs).1.position ∧
      (animateRoll c s { v with position := q, orientation := Q } rs).1.orientation =
        (animateRoll c s v rs).1.orientation

/-- A voxel one `animateRoll` call away from completing a roll to the right. -/
def vC1 : Voxel :=
  { voxelDefault with
      isMoving := true
      rollProgress := 1
      direction := ⟨1, 0, 0⟩
      axis := ⟨0, 0, -1⟩ }

/-- A voxel that just started a roll to the right from the origin. -/
def vC2 : Voxel :=
  { voxelDefault with
      isMoving := true
      rollProgress := 0
      direction := ⟨1, 0, 0⟩
      axis := ⟨0, 0, -1⟩
      pivot := ⟨1/2, -1/2, 0⟩ }

/-- An idle voxel at lattice position `(4, 0, 2)`. -/
def vC3 : Voxel :=
  { voxelDefault with position := ⟨4, 0, 2⟩ }

/-- A voxel in the rolling state (other fields at their defaults). -/
def vRolling : Voxel :=
  { voxelDefault with isMoving := true }

/-- A voxel about to complete a roll from `(90, 0, 0)` to `(91, 0, 0)`,
past the spawn range. -/
def vC5 : Voxel :=
  { voxelDefault with
      isMoving := true
      rollProgress := 1
      startPosition := ⟨90, 0, 0⟩
      direction := ⟨1, 0, 0⟩
      axis := ⟨0, 0, -1⟩ }

/-- An idle voxel waiting the maximum wait time. -/
def idleVoxel : Voxel :=
  { voxelDefault with waitTimer := 4000 }

/-- The six world coordinate axes (both signs). -/
def worldAxes : List Vec3 :=
  [⟨1, 0, 0⟩, ⟨0, 1, 0⟩, ⟨0, 0, 1⟩, ⟨-1, 0, 0⟩, ⟨0, -1, 0⟩, ⟨0, 0, -1⟩]

/-- The cosine/sine pairs of the four multiples of 90°. -/
def quarterTurns : List (ℚ × ℚ) :=
  [(1, 0), (0, 1), (-1, 0), (0, -1)]

/-- Every rotation that is a multiple of 90° about a world axis. -/
def ninetyMultiples : List Mat3 :=
  worldAxes.flatMap fun a => quarterTurns.map fun cs => rodrigues a cs.1 cs.2

/-- The sum of the diagonal of a rotation matrix; a rotation by `θ` has trace
`1 + 2 cos θ`, so every multiple of 90° about a unit axis has trace `3`, `1`
or `−1`. -/
def Mat3.diagSum (M : Mat3) : ℚ :=
  M.a00 + M.a11 + M.a22

/-- The orientation after one completed roll to the right from the identity:
exactly what `animateRoll` snaps to after `startRoll` picked `dirs[0]` on a
fresh voxel. -/
def cexOrientation : Mat3 :=
  (rot90 ⟨0, 0, -1⟩).mul Mat3.one

/-- A voxel one `step` away from completing its second roll: it sits at
`(1, 0, 0)` with orientation `cexOrientation` (one completed roll about
`(0, 0, −1)`), and is `94%` through a forward roll (`dirs[2]`: direction
`(0, 0, 1)`, axis `(1, 0, 0)`), with the pivot and snapshots exactly as
`startRoll` computes them from that rest state. -/
def cexBefore : Voxel :=
  { position := ⟨1, 0, 0⟩
    orientation := cexOrientation
    isMoving := true
    waitTimer := 0
    rollProgress := 94/100
    direction := ⟨0, 0, 1⟩
    axis := ⟨1, 0, 0⟩
    pivot := ⟨1, -1/2, 1/2⟩
    startPosition := ⟨1, 0, 0⟩
    startOrientation := cexOrientation }

/-- The idle voxel produced by that completing `step`. -/
def cexAfter : Voxel :=
  (step cFun sFun cexBefore 0 [0]).1

/-! ## Helper lemmas -/

lemma intQ_add {a b : ℚ} (ha : intQ a) (hb : intQ b) : intQ (a + b) := by
  obtain ⟨m, rfl⟩ := ha
  obtain ⟨n, rfl⟩ := hb
  exact ⟨m + n, by push_cast; ring⟩

lemma intQ_intCast (n : ℤ) : intQ ((n : ℤ) : ℚ) :=
  ⟨n, rfl⟩

lemma intVec_add {a b : Vec3} (ha : intVec a) (hb : intVec b) : intVec (a.add b) :=
  ⟨intQ_add ha.1 hb.1, intQ_add ha.2.1 hb.2.1, intQ_add ha.2.2 hb.2.2⟩

/-- Whatever `Math.floor(Math.random() * 4)` comes out to, the move actually
used is one of the four table entries. -/
lemma dirs_pick_mem (n : Nat) :
    ((dirs.get? n).getD ⟨⟨1, 0, 0⟩, ⟨0, 0, -1⟩⟩) ∈ dirs := by
  match n with
  | 0 => decide
  | 1 => decide
  | 2 => decide
  | 3 => decide
  | m + 4 =>
    have h : dirs.get? (m + 4) = none := rfl
    rw [h]
    decide

/-- A move drawn from `dirs` has an integer direction vector and an axis from
`rollAxes`. -/
lemma dirOk_elim {v : Voxel} (h : dirOk v) :
    intVec v.direction ∧ v.axis ∈ rollAxes := by
  simp only [dirOk, dirs, List.mem_cons, List.not_mem_nil, or_false,
    DirMove.mk.injEq] at h
  rcases h with ⟨h1, h2⟩ | ⟨h1, h2⟩ | ⟨h1, h2⟩ | ⟨h1, h2⟩ <;> rw [h1, h2]
  · exact ⟨⟨⟨1, by norm_num⟩, ⟨0, by norm_num⟩, ⟨0, by norm_num⟩⟩, by decide⟩
  · exact ⟨⟨⟨-1, by norm_num⟩, ⟨0, by norm_num⟩, ⟨0, by norm_num⟩⟩, by decide⟩
  · exact ⟨⟨⟨0, by norm_num⟩, ⟨0, by norm_num⟩, ⟨1, by norm_num⟩⟩, by decide⟩
  · exact ⟨⟨⟨0, by norm_num⟩, ⟨0, by norm_num⟩, ⟨-1, by norm_num⟩⟩, by decide⟩

/-- The spawn-coordinate draw `Math.floor((u - 0.5) * spawnRange)` lands in
`[-45, 44]` for `u ∈ [0, 1)`. -/
lemma floor_spawn_bounds {u : ℚ} (h0 : 0 ≤ u) (h1 : u < 1) :
    (-45 : ℚ) ≤ ((Int.floor ((u - 1/2) * spawnRange) : ℤ) : ℚ) ∧
      ((Int.floor ((u - 1/2) * spawnRange) : ℤ) : ℚ) ≤ 44 := by
  have hq1 : (-45 : ℚ) ≤ (u - 1/2) * spawnRange := by
    simp only [spawnRange]; nlinarith
  have hq2 : (u - 1/2) * spawnRange < 45 := by
    simp only [spawnRange]; nlinarith
  have i1 : (-45 : ℤ) ≤ Int.floor ((u - 1/2) * spawnRange) :=
    Int.le_floor.mpr (by push_cast; linarith)
  have i2 : Int.floor ((u - 1/2) * spawnRange) < 45 :=
    Int.floor_lt.mpr (by push_cast; linarith)
  constructor
  · exact_mod_cast i1
  · exact_mod_cast Int.lt_add_one_iff.mp i2

/-- `animateRoll` always leaves `rollProgress` at its incremented value: the
snap, the wait-timer draw and the recycle all preserve it. -/
lemma animateRoll_rollProgress (c s : ℚ → ℚ) (v : Voxel) (rs : List ℚ) :
    (animateRoll c s v rs).1.rollProgress = v.rollProgress + moveSpeed := by
  unfold animateRoll
  dsimp only
  split
  · split
    · unfold reset
      dsimp only
      rfl
    · rfl
  · rfl

/-- `startRoll` does not touch the wait timer. -/
lemma startRoll_waitTimer (v : Voxel) (rs : List ℚ) :
    (startRoll v rs).1.waitTimer = v.waitTimer := rfl

/-- `reset` establishes the invariant: integer spawn coordinates, identity
orientation, idle state. -/
lemma reset_good (v : Voxel) (rs : List ℚ) : GoodVoxel (reset v rs).1 := by
  refine ⟨fun _ => ⟨⟨⟨_, rfl⟩, ⟨0, by simp [reset]⟩, ⟨_, rfl⟩⟩, Aligned.one⟩, fun h => ?_⟩
  exact Bool.noConfusion h

/-- `startRoll` from a good idle state produces a good rolling state: the
snapshots inherit the idle invariant and the move is drawn from `dirs`. -/
lemma startRoll_good (v : Voxel) (rs : List ℚ)
    (hpos : intVec v.position) (hori : Aligned v.orientation) :
    GoodVoxel (startRoll v rs).1 := by
  refine ⟨fun h => Bool.noConfusion h, fun _ => ⟨hpos, hori, ?_⟩⟩
  exact dirs_pick_mem _

/-- One `step` preserves the invariant. -/
lemma step_good (c s : ℚ → ℚ) (v : Voxel) (d : ℚ) (rs : List ℚ)
    (h : GoodVoxel v) : GoodVoxel (step c s v d rs).1 := by
  unfold step
  by_cases hm : v.isMoving = true
  · rw [if_pos hm]
    obtain ⟨hsp, hso, hdir⟩ := h.2 hm
    unfold animateRoll
    dsimp only
    split
    · split
      · exact reset_good _ _
      · refine ⟨fun _ => ⟨?_, ?_⟩, fun hh => Bool.noConfusion hh⟩
        · exact intVec_add hsp (dirOk_elim hdir).1
        · exact Aligned.roll _ _ (dirOk_elim hdir).2 hso
    · exact ⟨fun hh => absurd (hm ▸ hh) (by simp), fun _ => ⟨hsp, hso, hdir⟩⟩
  · rw [if_neg hm]
    rw [Bool.not_eq_true] at hm
    obtain ⟨hpos, hori⟩ := h.1 hm
    dsimp only
    split
    · exact startRoll_good _ _ hpos hori
    · exact ⟨fun _ => ⟨hpos, hori⟩, fun hh => absurd (hm ▸ hh) (by simp)⟩

/-- A whole run of `step` calls preserves the invariant. -/
lemma run_good (c s : ℚ → ℚ) (v : Voxel) (ds rs : List ℚ)
    (h : GoodVoxel v) : GoodVoxel (run c s v ds rs).1 := by
  induction ds generalizing v rs with
  | nil => exact h
  | cons d tl ih =>
    have hstep : run c s v (d :: tl) rs =
        run c s (step c s v d rs).1 tl (step c s v d rs).2 := rfl
    rw [hstep]
    exact ih _ _ (step_good c s v d rs h)

/-! ## Claim theorems -/

/-- Claim C1: when a roll completes (`progress ≥ 1` in `animateRoll`), the
position is set to exactly `startPosition + direction` and the orientation to
exactly one 90° rotation about the stored `axis` composed onto
`startOrientation`; hence exactly one horizontal coordinate changes, by
exactly `±1`, and the other horizontal coordinate and the vertical coordinate
are unchanged.  (The `animateRoll` conjuncts show the full call delivers the
snapped values whenever the snapped position stays in range; the out-of-range
recycle is claim C5.) -/
theorem roll_completion_snaps_exactly (c s : ℚ → ℚ) (v : Voxel) (u : ℚ) (rs : List ℚ)
    (hd : DirMove.mk v.direction v.axis ∈ dirs)
    (hm : 1 ≤ v.rollProgress + moveSpeed)
    (hin : ¬(spawnRange < |(v.startPosition.add v.direction).x| ∨
        spawnRange < |(v.startPosition.add v.direction).z|)) :
    SnapSpec v ∧
    (animateRoll c s v (u :: rs)).1.position = (snapRoll v).position ∧
    (animateRoll c s v (u :: rs)).1.orientation = (snapRoll v).orientation := by
  constructor
  · simp only [dirs, List.mem_cons, List.not_mem_nil, or_false,
      DirMove.mk.injEq] at hd
    rcases hd with ⟨h1, _⟩ | ⟨h1, _⟩ | ⟨h1, _⟩ | ⟨h1, _⟩ <;>
      simp [SnapSpec, snapRoll, Vec3.add, h1]
  · unfold animateRoll
    dsimp only [snapRoll]
    rw [if_pos hm, if_neg hin]
    exact ⟨rfl, rfl⟩

/-- Claim C1 witness: a roll to the right from the origin, completing in
range. -/
theorem roll_completion_snaps_exactly_witness :
    SnapSpec vC1 ∧
    (animateRoll cFun sFun vC1 (0 :: [])).1.position = (snapRoll vC1).position ∧
    (animateRoll cFun sFun vC1 (0 :: [])).1.orientation = (snapRoll vC1).orientation :=
  roll_completion_snaps_exactly cFun sFun vC1 0 []
    (by simp [vC1, voxelDefault, dirs])
    (by norm_num [vC1, voxelDefault, moveSpeed])
    (by norm_num [vC1, voxelDefault, spawnRange, Vec3.add])

/-- Claim C2: a mid-roll step (`progress < 1`) recomputes position and
orientation from the stored snapshots — translate by `−pivot`, rotate by
`angle = 90° × progress` about `axis`, translate back, premultiply the same
rotation onto `startOrientation` — independently of the previous frame's
interpolated values; the angle equals `90° × progress` and stays within the
90° arc for `progress ∈ [0, 1]`; and at `progress = 0` the recomputed position
is exactly `startPosition`. -/
theorem midroll_recomputes_from_snapshots (c s : ℚ → ℚ) (v : Voxel) (rs : List ℚ)
    (hp : v.rollProgress + moveSpeed < 1) (hc : c 0 = 1) (hs : s 0 = 0) :
    MidRollSpec c s v rs ∧
    (∀ p, 0 ≤ p → p ≤ 1 → rollAngle p = 90 * p ∧ 0 ≤ rollAngle p ∧ rollAngle p ≤ 90) ∧
    (∀ (a sp piv : Vec3),
        ((rodrigues a (c (rollAngle 0)) (s (rollAngle 0))).mulVec (sp.sub piv)).add piv
          = sp) := by
  refine ⟨?_, ?_, ?_⟩
  · have hneg : ¬(1 ≤ v.rollProgress + moveSpeed) := not_le.mpr hp
    unfold MidRollSpec animateRoll
    dsimp only
    rw [if_neg hneg]
    refine ⟨rfl, rfl, fun q Q => ?_⟩
    rw [if_neg hneg]
    exact ⟨rfl, rfl⟩
  · intro p h0 h1
    refine ⟨rfl, ?_, ?_⟩ <;> unfold rollAngle <;> linarith
  · intro a sp piv
    have h0 : rollAngle 0 = 0 := by unfold rollAngle; ring
    rw [h0, hc, hs]
    cases sp with
    | mk spx spy spz =>
      cases piv with
      | mk px py pz =>
        simp only [rodrigues, Mat3.mulVec, Vec3.sub, Vec3.add, Vec3.mk.injEq]
        refine ⟨by ring, by ring, by ring⟩

/-- Claim C2 witness: the first animation step of a roll to the right from the
origin, with the trig parameters instantiated at the only angle the theorem's
trig hypotheses constrain. -/
theorem midroll_recomputes_from_snapshots_witness :
    MidRollSpec cFun sFun vC2 [] ∧
    (∀ p, 0 ≤ p → p ≤ 1 → rollAngle p = 90 * p ∧ 0 ≤ rollAngle p ∧ rollAngle p ≤ 90) ∧
    (∀ (a sp piv : Vec3),
        ((rodrigues a (cFun (rollAngle 0)) (sFun (rollAngle 0))).mulVec (sp.sub piv)).add piv
          = sp) :=
  midroll_recomputes_from_snapshots cFun sFun vC2 []
    (by norm_num [vC2, voxelDefault, moveSpeed]) rfl rfl

/-- Claim C3: `startRoll` places the pivot at the current position plus half a
cell in the travel direction plus half a cell downward, and snapshots the
start position; completing that roll lands at `position + direction`.  In the
concrete scenario, an actor at `(4, 0, 2)` picking direction `(+1, 0, 0)` gets
pivot `(4.5, -0.5, 2)` and completes at `(5, 0, 2)`. -/
theorem startRoll_pivot_bottom_edge :
    (∀ (v : Voxel) (u : ℚ) (rs : List ℚ),
        (startRoll v (u :: rs)).1.pivot =
            (v.position.add
                (Vec3.smul (cubeSize / 2) (startRoll v (u :: rs)).1.direction)).add
              ⟨0, -(cubeSize / 2), 0⟩ ∧
        (startRoll v (u :: rs)).1.startPosition = v.position ∧
        (snapRoll (startRoll v (u :: rs)).1).position =
            v.position.add (startRoll v (u :: rs)).1.direction) ∧
    (startRoll vC3 [0]).1.direction = ⟨1, 0, 0⟩ ∧
    (startRoll vC3 [0]).1.pivot = ⟨9/2, -1/2, 2⟩ ∧
    (snapRoll (startRoll vC3 [0]).1).position = ⟨5, 0, 2⟩ := by
  refine ⟨fun v u rs => ⟨rfl, rfl, rfl⟩, ?_, ?_, ?_⟩ <;>
    norm_num [startRoll, snapRoll, randTake, vC3, voxelDefault, dirs, cubeSize,
      Vec3.add, Vec3.smul, Vec3.mk.injEq]

/-- Claim C4 (amended): for every actor in the idle state, each position
coordinate is an integer and the orientation is a product of exact 90°
rotations about world axes (an element of the cube's rotation group, the
`Aligned` predicate) — though not necessarily a single multiple of 90° about
one world axis, see the counterexample.  The invariant is established by the
constructor's `reset`, preserved by every `step`, and therefore holds along
every run from a fresh spawn. -/
theorem idle_states_stay_on_lattice (c s : ℚ → ℚ) :
    (∀ rs, GoodVoxel (mkVoxel rs).1) ∧
    (∀ (v : Voxel) (d : ℚ) (rs : List ℚ), GoodVoxel v → GoodVoxel (step c s v d rs).1) ∧
    (∀ (rs0 ds rs : List ℚ),
        (run c s (mkVoxel rs0).1 ds rs).1.isMoving = false →
        intVec (run c s (mkVoxel rs0).1 ds rs).1.position ∧
          Aligned (run c s (mkVoxel rs0).1 ds rs).1.orientation) :=
  ⟨fun _ => reset_good _ _,
   fun v d rs h => step_good c s v d rs h,
   fun rs0 ds rs h => (run_good c s _ ds rs (reset_good _ _)).1 h⟩

/-- Claim C4 witness: the invariant read off on a freshly spawned voxel. -/
theorem idle_states_stay_on_lattice_witness :
    intVec (run cFun sFun (mkVoxel [1/2, 1/2, 0]).1 [] []).1.position ∧
      Aligned (run cFun sFun (mkVoxel [1/2, 1/2, 0]).1 [] []).1.orientation :=
  (idle_states_stay_on_lattice cFun sFun).2.2 [1/2, 1/2, 0] [] [] rfl

/-- Claim C4 counterexample: "the orientation is a multiple of 90° about a
world axis" is not preserved by a completed roll.  `cexBefore` is a rolling
voxel whose snapshot orientation is one completed roll about `(0, 0, −1)` —
itself a 90° multiple about a world axis — and whose pending move is
`dirs[2]`; the `step` that completes the roll leaves an idle actor whose
orientation `rot90 (1,0,0) · rot90 (0,0,−1)` has trace 0, a 120° rotation
about a body diagonal, which is no multiple of 90° about any world axis. -/
theorem idle_orientation_not_axis_multiple :
    cexBefore.startOrientation ∈ ninetyMultiples ∧
    DirMove.mk cexBefore.direction cexBefore.axis ∈ dirs ∧
    cexAfter.isMoving = false ∧
    cexAfter.position = ⟨1, 0, 1⟩ ∧
    cexAfter.orientation ∉ ninetyMultiples := by
  have hafter : cexAfter.orientation = ⟨0, 1, 0, 0, 0, -1, -1, 0, 0⟩ := by
    norm_num [cexAfter, step, animateRoll, snapRoll, cexBefore, cexOrientation,
      rot90, rodrigues, Mat3.mul, Mat3.one, spawnRange, moveSpeed, Vec3.add,
      randTake, Mat3.mk.injEq]
  refine ⟨?_, ?_, ?_, ?_, ?_⟩
  · have heq : rodrigues ⟨0, 0, -1⟩ 0 1 = cexBefore.startOrientation := by
      norm_num [cexBefore, cexOrientation, rot90, rodrigues, Mat3.mul, Mat3.one,
        Mat3.mk.injEq]
    exact List.mem_flatMap.mpr
      ⟨⟨0, 0, -1⟩, by simp [worldAxes],
        List.mem_map.mpr ⟨(0, 1), by simp [quarterTurns], heq⟩⟩
  · simp [cexBefore, dirs]
  · norm_num [cexAfter, step, animateRoll, cexBefore, spawnRange, moveSpeed,
      snapRoll, Vec3.add, randTake]
  · norm_num [cexAfter, step, animateRoll, cexBefore, spawnRange, moveSpeed,
      snapRoll, Vec3.add, randTake, Vec3.mk.injEq]
  · intro hmem
    rw [hafter] at hmem
    simp only [ninetyMultiples, worldAxes, quarterTurns, List.mem_flatMap,
      List.mem_map, List.mem_cons, List.not_mem_nil, or_false] at hmem
    obtain ⟨a, ha, cs, hcs, hEq⟩ := hmem
    rcases ha with rfl | rfl | rfl | rfl | rfl | rfl <;>
      rcases hcs with rfl | rfl | rfl | rfl <;>
      norm_num [rodrigues, Mat3.mk.injEq] at hEq

/-- Claim C5: when the snapped end-of-roll position exceeds the spawn range on
either horizontal axis, the same `animateRoll` call recycles the actor — a
random lattice position inside the range, identity orientation, fresh random
wait; otherwise the snapped position is kept and no teleport happens. -/
theorem roll_overrange_recycles (c s : ℚ → ℚ) (v : Voxel) (u u1 u2 u3 : ℚ)
    (rs : List ℚ) (hm : 1 ≤ v.rollProgress + moveSpeed)
    (h1 : 0 ≤ u1) (h1' : u1 < 1) (h2 : 0 ≤ u2) (h2' : u2 < 1) :
    ((spawnRange < |(v.startPosition.add v.direction).x| ∨
        spawnRange < |(v.startPosition.add v.direction).z|) →
      (animateRoll c s v (u :: u1 :: u2 :: u3 :: rs)).1.position.x =
          ((Int.floor ((u1 - 1/2) * spawnRange) : ℤ) : ℚ) ∧
      (animateRoll c s v (u :: u1 :: u2 :: u3 :: rs)).1.position.z =
          ((Int.floor ((u2 - 1/2) * spawnRange) : ℤ) : ℚ) ∧
      |(animateRoll c s v (u :: u1 :: u2 :: u3 :: rs)).1.position.x| ≤ spawnRange ∧
      |(animateRoll c s v (u :: u1 :: u2 :: u3 :: rs)).1.position.z| ≤ spawnRange ∧
      (animateRoll c s v (u :: u1 :: u2 :: u3 :: rs)).1.orientation = Mat3.one ∧
      (animateRoll c s v (u :: u1 :: u2 :: u3 :: rs)).1.waitTimer = u3 * maxWaitTime ∧
      (animateRoll c s v (u :: u1 :: u2 :: u3 :: rs)).1.isMoving = false) ∧
    (¬(spawnRange < |(v.startPosition.add v.direction).x| ∨
        spawnRange < |(v.startPosition.add v.direction).z|) →
      (animateRoll c s v (u :: u1 :: u2 :: u3 :: rs)).1.position =
          v.startPosition.add v.direction ∧
      (animateRoll c s v (u :: u1 :: u2 :: u3 :: rs)).1.waitTimer = u * maxWaitTime ∧
      (animateRoll c s v (u :: u1 :: u2 :: u3 :: rs)).1.isMoving = false) := by
  unfold animateRoll
  dsimp only [snapRoll]
  rw [if_pos hm]
  by_cases hout : spawnRange < |(v.startPosition.add v.direction).x| ∨
      spawnRange < |(v.startPosition.add v.direction).z|
  · rw [if_pos hout]
    refine ⟨fun _ => ⟨rfl, rfl, ?_, ?_, rfl, rfl, rfl⟩, fun hno => absurd hout hno⟩
    · have hb := floor_spawn_bounds h1 h1'
      show |((Int.floor ((u1 - 1/2) * spawnRange) : ℤ) : ℚ)| ≤ spawnRange
      rw [abs_le]
      unfold spawnRange at hb ⊢
      exact ⟨by linarith [hb.1], by linarith [hb.2]⟩
    · have hb := floor_spawn_bounds h2 h2'
      show |((Int.floor ((u2 - 1/2) * spawnRange) : ℤ) : ℚ)| ≤ spawnRange
      rw [abs_le]
      unfold spawnRange at hb ⊢
      exact ⟨by linarith [hb.1], by linarith [hb.2]⟩
  · rw [if_neg hout]
    exact ⟨fun hyes => absurd hyes hout, fun _ => ⟨rfl, rfl, rfl⟩⟩

/-- Claim C5 witness: a roll completing at `(91, 0, 0)` with spawn range 90 is
recycled into range using the injected random values `(0.5, 0.5, 0.25)`. -/
theorem roll_overrange_recycles_witness :
    ((spawnRange < |(vC5.startPosition.add vC5.direction).x| ∨
        spawnRange < |(vC5.startPosition.add vC5.direction).z|) →
      (animateRoll cFun sFun vC5 (0 :: 1/2 :: 1/2 :: 1/4 :: [])).1.position.x =
          ((Int.floor ((1/2 - 1/2) * spawnRange) : ℤ) : ℚ) ∧
      (animateRoll cFun sFun vC5 (0 :: 1/2 :: 1/2 :: 1/4 :: [])).1.position.z =
          ((Int.floor ((1/2 - 1/2) * spawnRange) : ℤ) : ℚ) ∧
      |(animateRoll cFun sFun vC5 (0 :: 1/2 :: 1/2 :: 1/4 :: [])).1.position.x| ≤ spawnRange ∧
      |(animateRoll cFun sFun vC5 (0 :: 1/2 :: 1/2 :: 1/4 :: [])).1.position.z| ≤ spawnRange ∧
      (animateRoll cFun sFun vC5 (0 :: 1/2 :: 1/2 :: 1/4 :: [])).1.orientation = Mat3.one ∧
      (animateRoll cFun sFun vC5 (0 :: 1/2 :: 1/2 :: 1/4 :: [])).1.waitTimer = 1/4 * maxWaitTime ∧
      (animateRoll cFun sFun vC5 (0 :: 1/2 :: 1/2 :: 1/4 :: [])).1.isMoving = false) ∧
    (¬(spawnRange < |(vC5.startPosition.add vC5.direction).x| ∨
        spawnRange < |(vC5.startPosition.add vC5.direction).z|) →
      (animateRoll cFun sFun vC5 (0 :: 1/2 :: 1/2 :: 1/4 :: [])).1.position =
          vC5.startPosition.add vC5.direction ∧
      (animateRoll cFun sFun vC5 (0 :: 1/2 :: 1/2 :: 1/4 :: [])).1.waitTimer = 0 * maxWaitTime ∧
      (animateRoll cFun sFun vC5 (0 :: 1/2 :: 1/2 :: 1/4 :: [])).1.isMoving = false) :=
  roll_overrange_recycles cFun sFun vC5 0 (1/2) (1/2) (1/4) []
    (by norm_num [vC5, voxelDefault, moveSpeed])
    (by norm_num) (by norm_num) (by norm_num) (by norm_num)

/-- Claim C6: while rolling, `step` ignores the elapsed-time argument entirely
and bumps `rollProgress` by exactly `moveSpeed` per call; while idle, the
elapsed time enters only through the wait-timer countdown. -/
theorem rolling_progress_framerate_dependent (c s : ℚ → ℚ) (v : Voxel)
    (d d' : ℚ) (rs : List ℚ) :
    (v.isMoving = true →
      step c s v d rs = step c s v d' rs ∧
      step c s v d rs = animateRoll c s v rs ∧
      (step c s v d rs).1.rollProgress = v.rollProgress + moveSpeed) ∧
    (v.isMoving = false →
      step c s v d rs =
        (if v.waitTimer - d ≤ 0 then startRoll { v with waitTimer := v.waitTimer - d } rs
         else ({ v with waitTimer := v.waitTimer - d }, rs))) := by
  constructor
  · intro hm
    refine ⟨?_, ?_, ?_⟩
    · unfold step; rw [if_pos hm, if_pos hm]
    · unfold step; rw [if_pos hm]
    · unfold step; rw [if_pos hm]; exact animateRoll_rollProgress c s v rs
  · intro hm
    unfold step
    rw [if_neg (by simp [hm])]

/-- Claim C6 witness: two different elapsed times give the same result on a
rolling voxel. -/
theorem rolling_progress_framerate_dependent_witness :
    step cFun sFun vRolling 5 [] = step cFun sFun vRolling 99 [] ∧
    step cFun sFun vRolling 5 [] = animateRoll cFun sFun vRolling [] ∧
    (step cFun sFun vRolling 5 []).1.rollProgress = vRolling.rollProgress + moveSpeed :=
  (rolling_progress_framerate_dependent cFun sFun vRolling 5 99 []).1 rfl

/-- Claim C7 (amended): the frame loop performs no clamping — it passes the
raw delta `time - lastTime` to every actor's `step`, so negative or huge
deltas reach the wait-timer countdown unmodified. -/
theorem animate_passes_raw_delta (c s : ℚ → ℚ) (v : Voxel)
    (h : v.isMoving = false) (lastTime time : ℚ) (rs : List ℚ) :
    ∃ w, (animateFrame c s lastTime time [v] rs).1 = [w] ∧
      w.waitTimer = v.waitTimer - (time - lastTime) := by
  refine ⟨(step c s v (time - lastTime) rs).1, rfl, ?_⟩
  unfold step
  rw [if_neg (by simp [h])]
  dsimp only
  split
  · exact startRoll_waitTimer _ _
  · rfl

/-- Claim C7 amended-theorem witness: the first frame's huge delta reaches the
wait timer in full. -/
theorem animate_passes_raw_delta_witness :
    ∃ w, (animateFrame cFun sFun 0 1000000 [idleVoxel] []).1 = [w] ∧
      w.waitTimer = idleVoxel.waitTimer - (1000000 - 0) :=
  animate_passes_raw_delta cFun sFun idleVoxel rfl 0 1000000 []

/-- Claim C7 counterexample: with the first-frame delta `time − lastTime =
1000000 − 0`, the idle voxel's wait timer becomes `4000 − 1000000 = −996000`:
the huge delta reached the wait-timer countdown unclamped, refuting the
claimed defensive clamping. -/
theorem animate_no_clamping_counterexample :
    ((animateFrame cFun sFun 0 1000000 [idleVoxel] []).1.map Voxel.waitTimer) =
      [-996000] := by
  norm_num [animateFrame, stepAll, step, startRoll, idleVoxel, voxelDefault,
    randTake]

/-- Claim C8: replaying the same initial state, the same elapsed-time deltas
and the same random-source values reproduces an identical sequence of
positions and orientations. -/
theorem replay_is_deterministic (c s : ℚ → ℚ) (v1 v2 : Voxel)
    (ds1 ds2 rs1 rs2 : List ℚ) (hv : v1 = v2) (hd : ds1 = ds2) (hr : rs1 = rs2) :
    (runTrace c s v1 ds1 rs1).map (fun w => (w.position, w.orientation)) =
      (runTrace c s v2 ds2 rs2).map (fun w => (w.position, w.orientation)) := by
  rw [hv, hd, hr]

/-- Claim C8 witness: a concrete replay. -/
theorem replay_is_deterministic_witness :
    (runTrace cFun sFun voxelDefault [1, 2] [0]).map (fun w => (w.position, w.orientation)) =
      (runTrace cFun sFun voxelDefault [1, 2] [0]).map (fun w => (w.position, w.orientation)) :=
  replay_is_deterministic cFun sFun voxelDefault voxelDefault [1, 2] [1, 2] [0] [0]
    rfl rfl rfl

/-- Claim C9: when a marker region's visible fraction crosses the threshold
going upward, the entry the observer delivers is intersecting, so the callback
sets the shared background to exactly that region's color the moment it
processes the entry (whatever batch prefix came before, with whatever prior
background). -/
theorem crossing_sets_background (pre : List Entry) (θ pf nf : ℚ)
    (C : Option String) (bg : Option String) (hup : pf < θ) (hcross : θ ≤ nf) :
    observerCallback (pre ++ [mkEntry θ nf C]) bg = C := by
  simp [observerCallback, mkEntry, List.foldl_append, hcross]

/-- Claim C9 witness: threshold 0.4, visibility crossing 30% → 45%, color
`"C"`: the background becomes exactly `"C"`. -/
theorem crossing_sets_background_witness :
    observerCallback [mkEntry observerThreshold (9/20) (some "C")] none = some "C" :=
  crossing_sets_background [] observerThreshold (3/10) (9/20) (some "C") none
    (by norm_num [observerThreshold]) (by norm_num [observerThreshold])

/-- Claim C10: `reset` (spawn and recycle alike) sets each horizontal
coordinate to `floor((u − 0.5) × spawnRange)` for the next random `u` and the
vertical coordinate to exactly 0; with the configured `spawnRange = 90` this
always lies in `[−45, 44]` — half the range actors may travel to before being
recycled. -/
theorem spawn_uses_half_range (v : Voxel) (u1 u2 u3 : ℚ) (rs : List ℚ)
    (h1 : 0 ≤ u1) (h1' : u1 < 1) (h2 : 0 ≤ u2) (h2' : u2 < 1) :
    spawnRange = 90 ∧
    (reset v (u1 :: u2 :: u3 :: rs)).1.position.x =
        ((Int.floor ((u1 - 1/2) * spawnRange) : ℤ) : ℚ) ∧
    (reset v (u1 :: u2 :: u3 :: rs)).1.position.y = 0 ∧
    (reset v (u1 :: u2 :: u3 :: rs)).1.position.z =
        ((Int.floor ((u2 - 1/2) * spawnRange) : ℤ) : ℚ) ∧
    -45 ≤ (reset v (u1 :: u2 :: u3 :: rs)).1.position.x ∧
    (reset v (u1 :: u2 :: u3 :: rs)).1.position.x ≤ 44 ∧
    -45 ≤ (reset v (u1 :: u2 :: u3 :: rs)).1.position.z ∧
    (reset v (u1 :: u2 :: u3 :: rs)).1.position.z ≤ 44 :=
  ⟨rfl, rfl, rfl, rfl,
   (floor_spawn_bounds h1 h1').1, (floor_spawn_bounds h1 h1').2,
   (floor_spawn_bounds h2 h2').1, (floor_spawn_bounds h2 h2').2⟩

/-- Claim C10 witness: spawning with random values `(0, 0.9, 0.5)` lands at
`(−45, 0, 36)`. -/
theorem spawn_uses_half_range_witness :
    spawnRange = 90 ∧
    (reset voxelDefault (0 :: 9/10 :: 1/2 :: [])).1.position.x =
        ((Int.floor ((0 - 1/2) * spawnRange) : ℤ) : ℚ) ∧
    (reset voxelDefault (0 :: 9/10 :: 1/2 :: [])).1.position.y = 0 ∧
    (reset voxelDefault (0 :: 9/10 :: 1/2 :: [])).1.position.z =
        ((Int.floor ((9/10 - 1/2) * spawnRange) : ℤ) : ℚ) ∧
    -45 ≤ (reset voxelDefault (0 :: 9/10 :: 1/2 :: [])).1.position.x ∧
    (reset voxelDefault (0 :: 9/10 :: 1/2 :: [])).1.position.x ≤ 44 ∧
    -45 ≤ (reset voxelDefault (0 :: 9/10 :: 1/2 :: [])).1.position.z ∧
    (reset voxelDefault (0 :: 9/10 :: 1/2 :: [])).1.position.z ≤ 44 :=
  spawn_uses_half_range voxelDefault 0 (9/10) (1/2) []
    (by norm_num) (by norm_num) (by norm_num) (by norm_num)

end UmakeWebsite
